import Mathlib

/-!
Shallow embedding of the ShipStation client library
(`src/ship_station/ship_station.py` and `src/ship_station/order_response.py`):
JSON-like values, the route table and URL builder, Basic-Auth checking, the
rate-limit tracker, the order-response normalization model, and the HTTP
operations of the client (each operation is a pure function of the client
state and the response(s) the network would return, and also yields the list
of HTTP requests it issued). Python exceptions are embedded as `Except`
errors; Python dicts as insertion-ordered association lists.
-/

namespace ShipStation

/-- Python exceptions that the embedded code can raise. -/
inductive PyError where
  | keyError (k : String)
  | typeError
  | binasciiError
  | unicodeDecodeError
deriving DecidableEq, Repr

/-- JSON-like Python values: None, bools, strings, integers, lists, dicts. -/
inductive Val where
  | vnull : Val
  | vbool : Bool → Val
  | vstr : String → Val
  | vint : Int → Val
  | varr : List Val → Val
  | vobj : List (String × Val) → Val
deriving Repr

/-- A Python dict with string keys, as an insertion-ordered association list. -/
abbrev Dict := List (String × Val)

/-- Python `d[k]` lookup (first matching key). -/
def aget (d : List (String × α)) (k : String) : Option α :=
  (d.find? (fun p => p.1 == k)).map (fun p => p.2)

/-- Python `k in d` membership test. -/
def amem (d : List (String × α)) (k : String) : Bool :=
  d.any (fun p => p.1 == k)

/-- Python `d[k] = v` assignment: overwrite in place, else append at the end. -/
def aset (d : List (String × α)) (k : String) (v : α) : List (String × α) :=
  if amem d k then d.map (fun p => if p.1 == k then (k, v) else p)
  else d ++ [(k, v)]

/-- Python `d[k]` subscripting of an arbitrary value: KeyError when the key is
absent from a dict, TypeError when the value is not subscriptable by a string. -/
def subscript (v : Val) (k : String) : Except PyError Val :=
  match v with
  | .vobj d =>
      match aget d k with
      | some x => .ok x
      | none => .error (.keyError k)
  | _ => .error .typeError

/-- Python `str(...)`, exact for the scalar values that occur as `orderId` /
`orderNumber`; containers are rendered opaquely (no claim depends on them). -/
def valToString : Val → String
  | .vstr s => s
  | .vint n => toString n
  | .vbool b => if b then ("True") else ("False")
  | .vnull => ("None")
  | .varr _ => ("<list>")
  | .vobj _ => ("<dict>")

/-! ## Python string primitives used by the source (modelled as structural
recursions over character lists so that concrete instances evaluate) -/

/-- Worker for `pySplit`: accumulates the current fragment in reverse. -/
def pySplitAux (sep : Char) : List Char → List Char → List String
  | [], acc => [String.mk acc.reverse]
  | c :: rest, acc =>
      if c = sep then String.mk acc.reverse :: pySplitAux sep rest []
      else pySplitAux sep rest (c :: acc)

/-- Python `s.split(sep)` for a one-character separator:
splits at every occurrence; the empty string yields `[""]`. -/
def pySplit (s : String) (sep : Char) : List String :=
  pySplitAux sep s.toList []

/-- Python `sub in s`: substring containment. -/
def containsSub (s sub : String) : Bool :=
  (List.range (s.toList.length + 1)).any
    (fun i => sub.toList.isPrefixOf (s.toList.drop i))

/-- Fuel-driven worker for `pyReplace` (the fuel is the input length; each
step consumes at least one character, so the fuel never runs out). -/
def pyReplaceAux (old new : List Char) : Nat → List Char → List Char
  | 0, cs => cs
  | _ + 1, [] => []
  | fuel + 1, c :: rest =>
      if old.isPrefixOf (c :: rest) then
        new ++ pyReplaceAux old new fuel ((c :: rest).drop old.length)
      else c :: pyReplaceAux old new fuel rest

/-- Python `s.replace(old, new)` for non-empty `old`: replaces every
non-overlapping occurrence, left to right. -/
def pyReplace (s old new : String) : String :=
  String.mk (pyReplaceAux old.toList new.toList s.toList.length s.toList)

/-- ASCII lowering of one character, as Python `str.lower` acts on the
ASCII route keys. -/
def charLower (c : Char) : Char :=
  if 'A' ≤ c ∧ c ≤ 'Z' then Char.ofNat (c.toNat + 32) else c

/-- Python `s.lower()` (ASCII). -/
def pyLower (s : String) : String :=
  String.mk (s.toList.map charLower)

/-! ## ShipStationMeta (constants and the URL builder) -/

/-- `ShipStationMeta.route_map`. -/
def route_map : List (String × String) :=
  [("orders", "/orders/"),
   ("stores", "/stores/"),
   ("webhooks", "/webhooks/"),
   ("webhook_subscribe", "/webhooks/subscribe/"),
   ("webhook_delete", "/webhooks/"),
   ("order_update", "/orders/createorder/"),
   ("order_hold", "/orders/holduntil/")]

/-- `ShipStationMeta.order_status_able_to_be_updated`. -/
def order_status_able_to_be_updated : List String :=
  [("awaiting_payment"), ("awaiting_shipment"), ("on_hold")]

/-- `ShipStationMeta.remove_order_keys_before_updating`. -/
def remove_order_keys_before_updating : List String :=
  [("createDate"), ("modifyDate"), ("customerId"), ("orderTotal"),
   ("holdUntilDate"), ("userId"), ("externallyFulfilled"),
   ("externallyFulfilledBy"), ("externallyFulfilledById"),
   ("externallyFulfilledByName"), ("labelMessages")]

/-- `ShipStationMeta.host`. -/
def host : String := "ssapi.shipstation.com"

/-- `ShipStationMeta.build_path_url`. Note the source checks membership with
`path.lower()` but then indexes `self.route_map[path]` with the original
`path`, so a key that is in the table only after lowercasing raises KeyError;
the `additional_path` suffix is appended whenever non-empty, in every branch
that reaches it (appending the empty suffix is the identity). -/
def build_path_url (path : String) (additional_path : String) : Except PyError String :=
  let url := "https://" ++ host
  if (route_map.find? (fun p => p.1 == pyLower path)).isSome then
    match route_map.find? (fun p => p.1 == path) with
    | some kv => .ok (url ++ kv.2 ++ additional_path)
    | none => .error (.keyError path)
  else
    .ok (url ++ additional_path)

/-- Total wrapper used at the client's internal call sites, all of which pass
a key that is verbatim in the route table, where `build_path_url` cannot raise. -/
def build_path_urlD (path : String) (additional_path : String) : String :=
  match build_path_url path additional_path with
  | .ok u => u
  | .error _ => ""

/-! ## Authentication -/

/-- `ShipStation.__remove_basic_in_auth_string`: if the substring "Basic"
occurs, every occurrence of "Basic " (with the trailing space) is removed.
Substring occurrence is tested via `splitOn` (more than one fragment). -/
def remove_basic_in_auth_string (auth_string : String) : String :=
  if containsSub auth_string ("Basic") then
    pyReplace auth_string ("Basic ") ("")
  else auth_string

/-- `ShipStation.__decode_b64_auth_string`: base64-decode then UTF-8 decode
then split on ":". The base64/UTF-8 decoding is Python standard-library code,
so it is passed in as a parameter `b64` giving the outcome
of `base64.standard_b64decode(s).decode("utf-8")`; there is no exception
handling in the source, so a decode error propagates. -/
def decode_b64_auth_string (b64 : String → Except PyError String)
    (auth_string : String) : Except PyError (List String) :=
  match b64 auth_string with
  | .ok decoded_string => .ok (pySplit decoded_string ':')
  | .error e => .error e

/-- `ShipStation.authorize_request`. The stored credentials are `api_key` and
`api_secret`. Mirrors the source exactly: returns False when fewer than two
colon-separated parts, returns False when the given key differs from the
stored key AND the given secret differs from the stored secret, and returns
True otherwise. -/
def authorize_request (b64 : String → Except PyError String)
    (api_key api_secret auth_string : String) : Except PyError Bool :=
  let stripped := remove_basic_in_auth_string auth_string
  match decode_b64_auth_string b64 stripped with
  | .error e => .error e
  | .ok decoded_string =>
      if decoded_string.length < 2 then .ok false
      else
        let given_key := decoded_string.getD 0 ("")
        let given_secret := decoded_string.getD 1 ("")
        if given_key ≠ api_key ∧ given_secret ≠ api_secret then .ok false
        else .ok true

/-! ## Rate-limit tracker state -/

/-- The mutable counters of `ShipStationMeta` carried by a client instance. -/
structure ClientState where
  request_remaining : Int
  request_next_cycle_in_seconds : Int
deriving DecidableEq, Repr

/-- The defaults `request_remaining = 40`, `request_next_cycle_in_seconds = 60`. -/
def initialState : ClientState := ⟨40, 60⟩

/-- `ShipStation.api_limit_at_max`: `int(self.request_remaining) <= 0`. -/
def api_limit_at_max (st : ClientState) : Bool :=
  st.request_remaining ≤ 0

/-- `ShipStation.__update_api_limits`: overwrites both counters; the
`except` branch around two plain attribute assignments is unreachable, so the
returned flag is always True. -/
def update_api_limits (_st : ClientState)
    (request_remaining seconds_before_cycle_reset : Int) : ClientState × Bool :=
  (⟨request_remaining, seconds_before_cycle_reset⟩, true)

/-! ## Order response model (`order_response.py`) -/

/-- The constructor argument of `ShipStationOrderResponse`: either a Python
iterable, modelled by the list of values iteration yields, or a
non-iterable object (iterating it raises TypeError). -/
inductive OrderInput where
  | notIterable : OrderInput
  | records : List Val → OrderInput
deriving Repr

/-- Python iteration over a JSON value: a list yields its elements, a dict
its keys, a string its characters; other values are not iterable. -/
def toOrderInput : Val → OrderInput
  | .varr l => .records l
  | .vobj d => .records (d.map (fun p => .vstr p.1))
  | .vstr s => .records (s.toList.map (fun c => .vstr (String.mk [c])))
  | _ => .notIterable

/-- `order["orderId"]` on one element of the input: KeyError when the key is
missing, TypeError when the element is not a string-subscriptable mapping.
The three comprehensions catch exactly these two exceptions, so the outcome
is an `Option`. -/
def recordId? (order : Val) : Option Val :=
  match order with
  | .vobj d => aget d ("orderId")
  | _ => none

/-- `(str(order["orderId"]), order)` for one element, `none` on KeyError or
TypeError. -/
def recordIdJson? (order : Val) : Option (String × Val) :=
  match recordId? order with
  | some v => some (valToString v, order)
  | none => none

/-- `(str(order["orderId"]), str(order["orderNumber"]))` for one element,
`none` on KeyError or TypeError. -/
def recordIdNumber? (order : Val) : Option (String × String) :=
  match order with
  | .vobj d =>
      match aget d ("orderId"), aget d ("orderNumber") with
      | some i, some n => some (valToString i, valToString n)
      | _, _ => none
  | _ => none

/-- All-or-nothing traversal of a comprehension body: the comprehension
raises (and the `except` clause returns the empty result) as soon as one
element fails. -/
def collectAll (f : Val → Option α) : List Val → Option (List α)
  | [] => some []
  | o :: rest =>
      match f o with
      | none => none
      | some x =>
          match collectAll f rest with
          | none => none
          | some xs => some (x :: xs)

/-- `ShipStationOrderResponse.__get_all_order_ids`. -/
def get_all_order_ids (i : OrderInput) : List String :=
  match i with
  | .notIterable => []
  | .records l =>
      match collectAll (fun o => (recordId? o).map valToString) l with
      | some ids => ids
      | none => []

/-- `ShipStationOrderResponse.__map_order_ids_with_json`: a dict
comprehension, so duplicate keys keep the first position and the last value. -/
def map_order_ids_with_json (i : OrderInput) : Dict :=
  match i with
  | .notIterable => []
  | .records l =>
      match collectAll recordIdJson? l with
      | some pairs => pairs.foldl (fun d p => aset d p.1 p.2) []
      | none => []

/-- `ShipStationOrderResponse.__map_order_id_to_order_number`. -/
def map_order_id_to_order_number (i : OrderInput) : List (String × String) :=
  match i with
  | .notIterable => []
  | .records l =>
      match collectAll recordIdNumber? l with
      | some pairs => pairs.foldl (fun d p => aset d p.1 p.2) []
      | none => []

/-- `ShipStationOrderResponse.__has_empty_values`: iterating a dict yields
its keys, and a key is truthy iff it is a non-empty string. -/
def has_empty_values (orders : Dict) : Bool :=
  if orders.isEmpty then true
  else orders.all (fun p => p.1 == "")

/-- The `ShipStationOrderResponse` dataclass after `__init__` has run. -/
structure SSOrderResponse where
  orders : Dict
  is_empty : Bool
  order_ids : List String
  order_id_to_number_map : List (String × String)
  order_count : Nat
deriving Repr

/-- `ShipStationOrderResponse.__init__` (with `__get_order_count` inlined as
`len(self.order_ids)`). -/
def mkOrderResponse (i : OrderInput) : SSOrderResponse :=
  let orders := map_order_ids_with_json i
  { orders := orders
    is_empty := has_empty_values orders
    order_ids := get_all_order_ids i
    order_id_to_number_map := map_order_id_to_order_number i
    order_count := (get_all_order_ids i).length }

/-- The fully empty model, `ShipStationOrderResponse([])`. -/
def emptyOrderResponse : SSOrderResponse :=
  { orders := [], is_empty := true, order_ids := [],
    order_id_to_number_map := [], order_count := 0 }

/-! ## HTTP layer -/

/-- HTTP method of an issued request. -/
inductive Method where
  | get | post | delete
deriving DecidableEq, Repr

/-- One outbound HTTP request as the client issues it (`params` for GETs and
the JSON payload for POSTs are both recorded in `body`). -/
structure Request where
  method : Method
  url : String
  body : Val
deriving Repr

/-- What the network returns for one request: a timeout, a connection error,
or a response carrying `ok` (2xx), the two rate-limit headers
`X-Rate-Limit-Remaining` / `X-Rate-Limit-Reset` (assumed present, as the
source reads them unguarded), and the JSON body. -/
structure HttpResponse where
  ok : Bool
  rate_remaining : Int
  rate_reset : Int
  body : Val
deriving Repr

/-- Transport outcome of one `requests.*` call. -/
inductive HttpOutcome where
  | readTimeout
  | connectionError
  | success (r : HttpResponse)
deriving Repr

/-! ## Client operations. Each operation takes the client state and the
outcome(s) the network would produce for the request(s) it may issue, and
returns its Python return value (an `Except` when the source can raise),
the final client state, and the list of requests actually issued. -/

/-- `ShipStation.create_webhook_subscription`. -/
def create_webhook_subscription (st : ClientState)
    (target_url event store_id friendly_name : String)
    (resp : HttpOutcome) : Bool × ClientState × List Request :=
  if api_limit_at_max st then (false, st, [])
  else
    let webhook_url := build_path_urlD ("webhook_subscribe") ("")
    let event_body : Dict :=
      [(("target_url"), .vstr target_url), (("event"), .vstr event)]
    let event_body :=
      if store_id ≠ "" then event_body ++ [(("store_id"), .vstr store_id)]
      else event_body
    let event_body :=
      if friendly_name ≠ "" then
        event_body ++ [(("friendly_name"), .vstr friendly_name)]
      else event_body
    let req : Request := ⟨.post, webhook_url, .vobj event_body⟩
    match resp with
    | .readTimeout => (false, st, [req])
    | .connectionError => (false, st, [req])
    | .success r =>
        if !r.ok then (false, st, [req])
        else (true, st, [req])

/-- `ShipStation.get_webhooks`: returns `res.json()["webhooks"]`, so a
2xx body without that key raises KeyError; never updates the tracker. -/
def get_webhooks (st : ClientState)
    (resp : HttpOutcome) : Except PyError Val × ClientState × List Request :=
  if api_limit_at_max st then (.ok (.varr []), st, [])
  else
    let webhook_url := build_path_urlD ("webhooks") ("")
    let req : Request := ⟨.get, webhook_url, .vnull⟩
    match resp with
    | .readTimeout => (.ok (.varr []), st, [req])
    | .connectionError => (.ok (.varr []), st, [req])
    | .success r =>
        if !r.ok then (.ok (.varr []), st, [req])
        else
          match subscript r.body ("webhooks") with
          | .ok webhook_list => (.ok webhook_list, st, [req])
          | .error e => (.error e, st, [req])

/-- `ShipStation.delete_webhook`. -/
def delete_webhook (st : ClientState) (webhook_id : String)
    (resp : HttpOutcome) : Bool × ClientState × List Request :=
  if api_limit_at_max st then (false, st, [])
  else
    let webhook_url := build_path_urlD ("webhook_delete") webhook_id
    let req : Request := ⟨.delete, webhook_url, .vnull⟩
    match resp with
    | .readTimeout => (false, st, [req])
    | .connectionError => (false, st, [req])
    | .success r =>
        if !r.ok then (false, st, [req])
        else (true, st, [req])

/-- `ShipStation.get_all_stores`: not gated; updates the tracker on 2xx. -/
def get_all_stores (st : ClientState) (show_inactive_stores : Bool)
    (resp : HttpOutcome) : Except PyError Val × ClientState × List Request :=
  let stores_url := build_path_urlD ("stores") ("")
  let req : Request :=
    ⟨.get, stores_url, .vobj [(("showInactive"), .vbool show_inactive_stores)]⟩
  match resp with
  | .readTimeout => (.ok (.varr []), st, [req])
  | .connectionError => (.ok (.varr []), st, [req])
  | .success r =>
      if !r.ok then (.ok (.varr []), st, [req])
      else (.ok r.body, (update_api_limits st r.rate_remaining r.rate_reset).1, [req])

/-- `ShipStation.get_order`: not gated; wraps the 2xx body in a one-element
list and updates the tracker. -/
def get_order (st : ClientState) (order_id : String)
    (resp : HttpOutcome) : SSOrderResponse × ClientState × List Request :=
  let order_url := build_path_urlD ("orders") ("") ++ order_id
  let req : Request := ⟨.get, order_url, .vnull⟩
  match resp with
  | .readTimeout => (mkOrderResponse (.records []), st, [req])
  | .connectionError => (mkOrderResponse (.records []), st, [req])
  | .success r =>
      if !r.ok then (mkOrderResponse (.records []), st, [req])
      else
        (mkOrderResponse (.records [r.body]),
         (update_api_limits st r.rate_remaining r.rate_reset).1, [req])

/-- `ShipStation.get_all_orders`: not gated; updates the tracker on 2xx and
then reads `res.json()["orders"]`, so a 2xx body without that key raises
KeyError after the tracker was already overwritten. -/
def get_all_orders (st : ClientState) (custom_params : Dict)
    (resp : HttpOutcome) :
    Except PyError SSOrderResponse × ClientState × List Request :=
  let order_url := build_path_urlD ("orders") ("")
  let req : Request := ⟨.get, order_url, .vobj custom_params⟩
  match resp with
  | .readTimeout => (.ok (mkOrderResponse (.records [])), st, [req])
  | .connectionError => (.ok (mkOrderResponse (.records [])), st, [req])
  | .success r =>
      if !r.ok then (.ok (mkOrderResponse (.records [])), st, [req])
      else
        let st2 := (update_api_limits st r.rate_remaining r.rate_reset).1
        match subscript r.body ("orders") with
        | .ok orders => (.ok (mkOrderResponse (toOrderInput orders)), st2, [req])
        | .error e => (.error e, st2, [req])

/-- `ShipStation.is_order_able_to_be_updated`, on a mapping (the only operand
shape that reaches it): guarded key access, so a record without
`orderStatus` yields False without raising; list membership (`in` on a list
of strings) holds only for an equal string value. -/
def is_order_able_to_be_updated (order_json : Dict) : Bool :=
  match aget order_json ("orderStatus") with
  | some (.vstr s) => order_status_able_to_be_updated.contains s
  | some _ => false
  | none => false

/-- `ShipStation.__remove_invalid_order_keys`. -/
def remove_invalid_order_keys (order_body : Dict) : Dict :=
  order_body.filter (fun p => !(remove_order_keys_before_updating.contains p.1))

/-- `ShipStation.update_order_custom_note`:
`order_body["advancedOptions"][custom_note_key] = custom_note_str`, which
raises KeyError when `advancedOptions` is absent at the top level of
`order_body` and TypeError when it is not a mapping. -/
def update_order_custom_note (order_body : Dict)
    (custom_note_key custom_note_str : String) : Except PyError Dict :=
  match aget order_body ("advancedOptions") with
  | some (.vobj adv) =>
      .ok (aset order_body ("advancedOptions")
            (.vobj (aset adv custom_note_key (.vstr custom_note_str))))
  | some _ => .error .typeError
  | none => .error (.keyError ("advancedOptions"))

/-- The loop body of `ShipStation.__pre_update_order_checks` over
`order.orders.items()`: `print(single_order["orderStatus"])` subscripts the
record unguarded before `is_order_able_to_be_updated` runs, and the
error-logging branch subscripts `orderStatus` and `orderNumber` unguarded. -/
def pre_update_loop : Dict → Except PyError Bool
  | [] => .ok true
  | (_, single_order) :: rest =>
      match single_order with
      | .vobj d =>
          match aget d ("orderStatus") with
          | none => .error (.keyError ("orderStatus"))
          | some _ =>
              if !(is_order_able_to_be_updated d) then
                match aget d ("orderNumber") with
                | none => .error (.keyError ("orderNumber"))
                | some _ => .ok false
              else pre_update_loop rest
      | _ => .error .typeError

/-- `ShipStation.__pre_update_order_checks`. -/
def pre_update_order_checks (st : ClientState)
    (order : SSOrderResponse) : Except PyError Bool :=
  if order.is_empty then .ok false
  else if api_limit_at_max st then .ok false
  else pre_update_loop order.orders

/-- The chained optional custom-note updates of `update_order_notes`. -/
def apply_custom_notes (order_body : Dict)
    (custom_note custom_note2 custom_note3 : String) : Except PyError Dict :=
  match (if custom_note ≠ "" then
           update_order_custom_note order_body ("customField") custom_note
         else .ok order_body) with
  | .error e => .error e
  | .ok b1 =>
      match (if custom_note2 ≠ "" then
               update_order_custom_note b1 ("customField2") custom_note2
             else .ok b1) with
      | .error e => .error e
      | .ok b2 =>
          if custom_note3 ≠ "" then
            update_order_custom_note b2 ("customField3") custom_note3
          else .ok b2

/-- `ShipStation.update_order_notes`: fetches the order (an ungated GET that
may itself update the tracker), runs the pre-update checks, filters
`order.orders` (the id-to-record map, exactly as the source passes it)
through `__remove_invalid_order_keys`, sets `internalNotes`, applies the
custom notes, and POSTs. `fetch_resp` answers the GET, `post_resp` the POST. -/
def update_order_notes (st : ClientState)
    (order_id internal_note custom_note custom_note2 custom_note3 : String)
    (fetch_resp post_resp : HttpOutcome) :
    Except PyError Bool × ClientState × List Request :=
  let fetched := get_order st order_id fetch_resp
  let order := fetched.1
  let st1 := fetched.2.1
  let reqs1 := fetched.2.2
  match pre_update_order_checks st1 order with
  | .error e => (.error e, st1, reqs1)
  | .ok false => (.ok false, st1, reqs1)
  | .ok true =>
      let order_body := remove_invalid_order_keys order.orders
      let order_body := aset order_body ("internalNotes") (.vstr internal_note)
      match apply_custom_notes order_body custom_note custom_note2 custom_note3 with
      | .error e => (.error e, st1, reqs1)
      | .ok body =>
          let order_url := build_path_urlD ("order_update") ("")
          let req : Request := ⟨.post, order_url, .vobj body⟩
          match post_resp with
          | .readTimeout => (.ok false, st1, reqs1 ++ [req])
          | .connectionError => (.ok false, st1, reqs1 ++ [req])
          | .success r =>
              if !r.ok then (.ok false, st1, reqs1 ++ [req])
              else
                (.ok true,
                 (update_api_limits st1 r.rate_remaining r.rate_reset).1,
                 reqs1 ++ [req])

/-- `ShipStation.hold_order`: performs no rate-limit check at all; POSTs
`{"orderID": ..., "holdUntilDate": ...}` and updates the tracker on 2xx. -/
def hold_order (st : ClientState) (order_id : Int) (hold_until_date : String)
    (resp : HttpOutcome) : Bool × ClientState × List Request :=
  let order_url := build_path_urlD ("order_hold") ("")
  let order_body : Dict :=
    [(("orderID"), .vint order_id), (("holdUntilDate"), .vstr hold_until_date)]
  let req : Request := ⟨.post, order_url, .vobj order_body⟩
  match resp with
  | .readTimeout => (false, st, [req])
  | .connectionError => (false, st, [req])
  | .success r =>
      if !r.ok then (false, st, [req])
      else (true, (update_api_limits st r.rate_remaining r.rate_reset).1, [req])

/-! ## Concrete fixtures for the closed theorems -/

/-- A realistic single-order record as `get_order` fetches it: updatable
status, a server-managed key (`createDate`), and a nested `advancedOptions`
mapping. -/
def sampleOrderRecord : Val :=
  .vobj [(("orderId"), .vint 372872713),
         (("orderNumber"), .vstr ("0001234")),
         (("orderStatus"), .vstr ("awaiting_shipment")),
         (("createDate"), .vstr ("2024-03-19")),
         (("advancedOptions"), .vobj [(("customField1"), .vnull)])]

/-- Modelled outcome of `base64.standard_b64decode(s).decode("utf-8")` on a
malformed base64 string such as "AB" (two data characters: binascii.Error,
incorrect padding). -/
def b64_malformed_outcome : String → Except PyError String :=
  fun _ => .error .binasciiError

/-- Modelled outcome of the base64/UTF-8 decode on a valid encoding of a text
without a colon ("bm9jb2xvbg==" decodes to "nocolon"). -/
def b64_nocolon_outcome : String → Except PyError String :=
  fun _ => .ok ("nocolon")

/-- Modelled outcome of the base64/UTF-8 decode on a valid encoding of
"Fake Key:oops": the stored key followed by a wrong secret. -/
def b64_key_match_outcome : String → Except PyError String :=
  fun _ => .ok ("Fake Key:oops")

/-- An order record that lacks `orderStatus` (otherwise well-formed). -/
def recordNoStatus : Val :=
  .vobj [(("orderId"), .vint 5), (("orderNumber"), .vstr ("N1"))]

/-- An order record that has `orderId` but lacks `orderNumber`. -/
def recordNoNumber : Val :=
  .vobj [(("orderId"), .vint 1)]

/-- Two records sharing `orderId = 1` with different order numbers. -/
def dupIdRecords : List Val :=
  [.vobj [(("orderId"), .vint 1), (("orderNumber"), .vstr ("a"))],
   .vobj [(("orderId"), .vint 1), (("orderNumber"), .vstr ("b"))]]

/-- Two well-formed records with distinct order ids. -/
def twoOrderRecords : List Val :=
  [.vobj [(("orderId"), .vint 1), (("orderNumber"), .vstr ("a"))],
   .vobj [(("orderId"), .vint 2), (("orderNumber"), .vstr ("b"))]]

/-- A 2xx response whose JSON body is an empty object (no expected key). -/
def emptyBodyResponse : HttpResponse := ⟨true, 7, 30, .vobj []⟩

/-! ## Helper lemmas -/

/-- A comprehension whose body fails on some element yields the empty result. -/
theorem collectAll_eq_none_of_mem {α} {f : Val → Option α} {l : List Val} {o : Val}
    (ho : o ∈ l) (hf : f o = none) : collectAll f l = none := by
  induction l with
  | nil => cases ho
  | cons a rest ih =>
      rcases List.mem_cons.mp ho with h | h
      · subst h
        simp [collectAll, hf]
      · cases hfo : f a with
        | none => simp [collectAll, hfo]
        | some x => simp [collectAll, hfo, ih h]

/-- A record without a readable `orderId` has no id/number pair either. -/
theorem recordIdNumber?_eq_none {o : Val} (h : recordId? o = none) :
    recordIdNumber? o = none := by
  cases o with
  | vobj d =>
      simp only [recordId?] at h
      cases hn : aget d ("orderNumber") <;> simp [recordIdNumber?, h, hn]
  | vnull => rfl
  | vbool b => rfl
  | vstr s => rfl
  | vint n => rfl
  | varr l => rfl

/-- Collecting first components succeeds whenever collecting pairs whose
first component is the stringified `orderId` succeeds. -/
theorem collectAll_fst_of {β} {g : Val → Option (String × β)}
    (hg : ∀ o q, g o = some q → (recordId? o).map valToString = some q.1) :
    ∀ {l : List Val} {ps : List (String × β)}, collectAll g l = some ps →
    collectAll (fun o => (recordId? o).map valToString) l = some (ps.map Prod.fst) := by
  intro l
  induction l with
  | nil =>
      intro ps h
      simp [collectAll] at h
      simp [collectAll, ← h]
  | cons a rest ih =>
      intro ps h
      cases hga : g a with
      | none => simp [collectAll, hga] at h
      | some q =>
          cases hrest : collectAll g rest with
          | none => simp [collectAll, hga, hrest] at h
          | some tail =>
              simp only [collectAll, hga, hrest] at h
              obtain rfl := Option.some.inj h
              simp [collectAll, hg a q hga, ih hrest]

/-- `recordIdJson?` pairs carry the stringified id in the first component. -/
theorem recordIdJson?_fst (o : Val) (q : String × Val)
    (h : recordIdJson? o = some q) :
    (recordId? o).map valToString = some q.1 := by
  simp only [recordIdJson?] at h
  cases hid : recordId? o with
  | none => simp [hid] at h
  | some v =>
      simp only [hid] at h
      obtain rfl := Option.some.inj h
      simp [hid]

/-- `recordIdNumber?` pairs carry the stringified id in the first component. -/
theorem recordIdNumber?_fst (o : Val) (q : String × String)
    (h : recordIdNumber? o = some q) :
    (recordId? o).map valToString = some q.1 := by
  cases o with
  | vobj d =>
      simp only [recordIdNumber?] at h
      cases hi : aget d ("orderId") with
      | none => simp [hi] at h
      | some i =>
          cases hn : aget d ("orderNumber") with
          | none => simp [hi, hn] at h
          | some n =>
              simp only [hi, hn, Option.some.injEq] at h
              simp [recordId?, hi, ← h]
  | vnull => simp [recordIdNumber?] at h
  | vbool b => simp [recordIdNumber?] at h
  | vstr s => simp [recordIdNumber?] at h
  | vint n => simp [recordIdNumber?] at h
  | varr l => simp [recordIdNumber?] at h

/-- Assigning a fresh key appends the binding at the end. -/
theorem aset_eq_append {α} {d : List (String × α)} {k : String} {v : α}
    (h : k ∉ d.map Prod.fst) : aset d k v = d ++ [(k, v)] := by
  have hm : amem d k = false := by
    simp only [amem, List.any_eq_false]
    intro p hp
    simp only [beq_iff_eq]
    intro hk
    exact h (hk ▸ List.mem_map_of_mem Prod.fst hp)
  simp [aset, hm]

/-- Folding dict assignment over bindings with pairwise-distinct fresh keys
just appends them in order. -/
theorem foldl_aset_eq_append {α} :
    ∀ (ps : List (String × α)) (acc : List (String × α)),
    (acc.map Prod.fst ++ ps.map Prod.fst).Nodup →
    ps.foldl (fun d p => aset d p.1 p.2) acc = acc ++ ps := by
  intro ps
  induction ps with
  | nil =>
      intro acc _
      simp
  | cons q rest ih =>
      intro acc h
      have hsplit := List.nodup_append.mp h
      have hk : q.1 ∉ acc.map Prod.fst := by
        intro hmem
        exact absurd (List.mem_cons_self q.1 (rest.map Prod.fst))
          (hsplit.2.2 hmem)
      have hstep : aset acc q.1 q.2 = acc ++ [(q.1, q.2)] := aset_eq_append hk
      have h2 : ((acc ++ [(q.1, q.2)]).map Prod.fst
          ++ rest.map Prod.fst).Nodup := by
        simpa [List.map_append, List.append_assoc] using h
      calc (q :: rest).foldl (fun d p => aset d p.1 p.2) acc
      _ = rest.foldl (fun d p => aset d p.1 p.2) (acc ++ [(q.1, q.2)]) := by
            simp [List.foldl_cons, hstep]
      _ = (acc ++ [(q.1, q.2)]) ++ rest := ih (acc ++ [(q.1, q.2)]) h2
      _ = acc ++ q :: rest := by simp

/-! ## Claim theorems -/

/-- C1: evaluation of the code at the spec's end-to-end scenario. A single
order with status `awaiting_shipment` is fetched, yet `update_order_notes`
passes `order.orders` — the id-to-record map, not the record — into
`__remove_invalid_order_keys`. Consequently: with a non-empty custom note the
call raises `KeyError("advancedOptions")` (the map has no top-level
`advancedOptions`) and never POSTs; with no custom notes the POSTed body is
the map with `internalNotes` appended, so the server-managed key
`createDate` survives inside the nested record instead of being stripped. -/
theorem C1_posts_map_shaped_body :
    (update_order_notes initialState ("372872713") ("note") ("x") ("") ("")
        (.success ⟨true, 39, 60, sampleOrderRecord⟩)
        (.success ⟨true, 38, 55, .vobj []⟩)).1
      = .error (.keyError ("advancedOptions"))
    ∧ (update_order_notes initialState ("372872713") ("note") ("x") ("") ("")
        (.success ⟨true, 39, 60, sampleOrderRecord⟩)
        (.success ⟨true, 38, 55, .vobj []⟩)).2.2
      = [⟨.get, ("https://ssapi.shipstation.com/orders/372872713"), .vnull⟩]
    ∧ (update_order_notes initialState ("372872713") ("note") ("") ("") ("")
        (.success ⟨true, 39, 60, sampleOrderRecord⟩)
        (.success ⟨true, 38, 55, .vobj []⟩)).1
      = .ok true
    ∧ (update_order_notes initialState ("372872713") ("note") ("") ("") ("")
        (.success ⟨true, 39, 60, sampleOrderRecord⟩)
        (.success ⟨true, 38, 55, .vobj []⟩)).2.2
      = [⟨.get, ("https://ssapi.shipstation.com/orders/372872713"), .vnull⟩,
         ⟨.post, ("https://ssapi.shipstation.com/orders/createorder/"),
          .vobj [(("372872713"), sampleOrderRecord),
                 (("internalNotes"), .vstr ("note"))]⟩]
    ∧ subscript sampleOrderRecord ("createDate") = .ok (.vstr ("2024-03-19")) :=
  ⟨rfl, rfl, rfl, rfl, rfl⟩

/-- C2: evaluation of the code at the failing input. With stored credentials
("Fake Key", "Fake Secret") and an auth string that decodes to
"Fake Key:oops" (key matches, secret does not), `authorize_request` returns
True, because the source only rejects when the key AND the secret both
mismatch. The claim requires False on any single mismatch. -/
theorem C2_single_mismatch_accepted :
    authorize_request b64_key_match_outcome ("Fake Key") ("Fake Secret") ("xyz")
      = .ok true
    ∧ ("oops") ≠ ("Fake Secret") :=
  ⟨rfl, by decide⟩

/-- C3 counterexample: on a malformed base64 auth string (decode raises
binascii.Error), `authorize_request` propagates the exception instead of
returning false — there is no exception handling around
`__decode_b64_auth_string`. -/
theorem C3_counterexample_decode_raises :
    authorize_request b64_malformed_outcome ("k") ("s") ("AB")
      = .error .binasciiError
    ∧ authorize_request b64_malformed_outcome ("k") ("s") ("AB")
      ≠ .ok false := by
  refine ⟨rfl, ?_⟩
  rw [show authorize_request b64_malformed_outcome ("k") ("s") ("AB")
        = Except.error PyError.binasciiError from rfl]
  exact fun h => Except.noConfusion h

/-- C3 (amended): a decode failure on the stripped auth string propagates to
the caller unchanged, and a successful decode with fewer than two
colon-separated parts yields False without raising. -/
theorem C3_decode_error_propagates (b64 : String → Except PyError String)
    (api_key api_secret auth_string : String) :
    (∀ e, b64 (remove_basic_in_auth_string auth_string) = .error e →
        authorize_request b64 api_key api_secret auth_string = .error e)
    ∧ (∀ d, b64 (remove_basic_in_auth_string auth_string) = .ok d →
        (pySplit d ':').length < 2 →
        authorize_request b64 api_key api_secret auth_string = .ok false) := by
  constructor
  · intro e he
    simp [authorize_request, decode_b64_auth_string, he]
  · intro d hd hlen
    simp [authorize_request, decode_b64_auth_string, hd, hlen]

/-- C3 witness: the amended theorem applied to a malformed input ("AB",
binascii.Error) and to a valid encoding of the colon-free text "nocolon". -/
theorem C3_decode_error_witness :
    authorize_request b64_malformed_outcome ("k") ("s") ("AB")
      = .error .binasciiError
    ∧ authorize_request b64_nocolon_outcome ("k") ("s") ("bm9jb2xvbg==")
      = .ok false :=
  ⟨(C3_decode_error_propagates b64_malformed_outcome ("k") ("s") ("AB")).1
      PyError.binasciiError rfl,
   (C3_decode_error_propagates b64_nocolon_outcome ("k") ("s")
      ("bm9jb2xvbg==")).2 ("nocolon") rfl (by decide)⟩

/-- C10: evaluation at the failing input. `is_order_able_to_be_updated`
itself returns False without raising on a record lacking `orderStatus`, but
`__pre_update_order_checks` (and hence `update_order_notes`) subscripts
`single_order["orderStatus"]` unguarded in its debug `print`, so the whole
operation raises `KeyError("orderStatus")` instead of returning False; no
POST is issued (only the pre-fetch GET). -/
theorem C10_missing_status_raises :
    is_order_able_to_be_updated
        [(("orderId"), Val.vint 5), (("orderNumber"), Val.vstr ("N1"))] = false
    ∧ (update_order_notes initialState ("5") ("n") ("") ("") ("")
        (.success ⟨true, 39, 60, recordNoStatus⟩) .readTimeout).1
      = .error (.keyError ("orderStatus"))
    ∧ (update_order_notes initialState ("5") ("n") ("") ("") ("")
        (.success ⟨true, 39, 60, recordNoStatus⟩) .readTimeout).2.2
      = [⟨.get, ("https://ssapi.shipstation.com/orders/5"), .vnull⟩] :=
  ⟨rfl, rfl, rfl⟩

/-- C6 counterexample: a record that has `orderId` but lacks `orderNumber`
does NOT yield an empty model: `orders` and `order_ids` are built normally,
`is_empty` is false and `count` is 1; only the id-to-number map is empty. -/
theorem C6_counterexample_missing_number :
    (mkOrderResponse (.records [recordNoNumber])).is_empty = false
    ∧ (mkOrderResponse (.records [recordNoNumber])).order_count = 1
    ∧ (mkOrderResponse (.records [recordNoNumber])).orders
        = [(("1"), recordNoNumber)]
    ∧ (mkOrderResponse (.records [recordNoNumber])).order_id_to_number_map
        = [] :=
  ⟨rfl, rfl, rfl, rfl⟩

/-- C6 (amended): construction never raises, and an input that is empty, not
iterable, or contains an element whose `orderId` is unreadable (missing key
or non-mapping element) yields the fully empty model. -/
theorem C6_empty_on_malformed (i : OrderInput)
    (h : i = .records [] ∨ i = .notIterable ∨
        ∃ l o, i = .records l ∧ o ∈ l ∧ recordId? o = none) :
    mkOrderResponse i = emptyOrderResponse := by
  rcases h with h | h | ⟨l, o, hi, ho, hid⟩
  · subst h
    rfl
  · subst h
    rfl
  · subst hi
    have h1 : collectAll (fun o => (recordId? o).map valToString) l = none :=
      collectAll_eq_none_of_mem ho (by simp [hid])
    have h2 : collectAll recordIdJson? l = none :=
      collectAll_eq_none_of_mem ho (by simp [recordIdJson?, hid])
    have h3 : collectAll recordIdNumber? l = none :=
      collectAll_eq_none_of_mem ho (recordIdNumber?_eq_none hid)
    simp [mkOrderResponse, get_all_order_ids, map_order_ids_with_json,
          map_order_id_to_order_number, h1, h2, h3, has_empty_values,
          emptyOrderResponse]

/-- C6 witness: a one-element input whose record lacks `orderId`. -/
theorem C6_empty_witness :
    mkOrderResponse (.records [Val.vobj []]) = emptyOrderResponse :=
  C6_empty_on_malformed (.records [Val.vobj []])
    (Or.inr (Or.inr ⟨[Val.vobj []], Val.vobj [], rfl, by simp, rfl⟩))

/-- C7 counterexample: two records sharing the same `orderId` — construction
succeeds, but `count = 2` while `orders_by_id` has a single entry, so
`count == len(orders_by_id)` fails. -/
theorem C7_counterexample_duplicate_ids :
    (mkOrderResponse (.records dupIdRecords)).order_count = 2
    ∧ (mkOrderResponse (.records dupIdRecords)).orders.length = 1 :=
  ⟨rfl, rfl⟩

/-- C7 (amended): when every record yields both an id/record pair and an
id/number pair and the stringified ids are pairwise distinct, the three
derived structures agree: `count = len(order_ids) = len(orders_by_id)
= len(id_to_number)` and all three carry exactly the same ids. -/
theorem C7_structures_agree (l : List Val) (ps : List (String × Val))
    (qs : List (String × String))
    (hp : collectAll recordIdJson? l = some ps)
    (hq : collectAll recordIdNumber? l = some qs)
    (hnd : (ps.map Prod.fst).Nodup) :
    (mkOrderResponse (.records l)).order_count
        = (mkOrderResponse (.records l)).order_ids.length
    ∧ (mkOrderResponse (.records l)).orders.length
        = (mkOrderResponse (.records l)).order_ids.length
    ∧ (mkOrderResponse (.records l)).order_id_to_number_map.length
        = (mkOrderResponse (.records l)).order_ids.length
    ∧ (mkOrderResponse (.records l)).orders.map Prod.fst
        = (mkOrderResponse (.records l)).order_ids
    ∧ (mkOrderResponse (.records l)).order_id_to_number_map.map Prod.fst
        = (mkOrderResponse (.records l)).order_ids := by
  have hids : collectAll (fun o => (recordId? o).map valToString) l
      = some (ps.map Prod.fst) := collectAll_fst_of recordIdJson?_fst hp
  have hids2 : collectAll (fun o => (recordId? o).map valToString) l
      = some (qs.map Prod.fst) := collectAll_fst_of recordIdNumber?_fst hq
  have hqp : qs.map Prod.fst = ps.map Prod.fst := by
    rw [hids] at hids2
    exact (Option.some.inj hids2).symm
  have hlen : qs.length = ps.length := by
    simpa using congrArg List.length hqp
  have horders : map_order_ids_with_json (.records l) = ps := by
    simp only [map_order_ids_with_json, hp]
    simpa using foldl_aset_eq_append ps [] (by simpa using hnd)
  have hmap : map_order_id_to_order_number (.records l) = qs := by
    simp only [map_order_id_to_order_number, hq]
    simpa using foldl_aset_eq_append qs [] (by simpa [hqp] using hnd)
  have hidlist : get_all_order_ids (.records l) = ps.map Prod.fst := by
    simp [get_all_order_ids, hids]
  refine ⟨?_, ?_, ?_, ?_, ?_⟩ <;>
    simp [mkOrderResponse, horders, hmap, hidlist, hqp, hlen]

/-- C7 witness: the amended theorem at two records with distinct ids. -/
theorem C7_structures_witness :
    (mkOrderResponse (.records twoOrderRecords)).order_count
        = (mkOrderResponse (.records twoOrderRecords)).order_ids.length
    ∧ (mkOrderResponse (.records twoOrderRecords)).orders.length
        = (mkOrderResponse (.records twoOrderRecords)).order_ids.length
    ∧ (mkOrderResponse (.records twoOrderRecords)).order_id_to_number_map.length
        = (mkOrderResponse (.records twoOrderRecords)).order_ids.length
    ∧ (mkOrderResponse (.records twoOrderRecords)).orders.map Prod.fst
        = (mkOrderResponse (.records twoOrderRecords)).order_ids
    ∧ (mkOrderResponse (.records twoOrderRecords)).order_id_to_number_map.map
        Prod.fst = (mkOrderResponse (.records twoOrderRecords)).order_ids :=
  C7_structures_agree twoOrderRecords
    [(("1"), .vobj [(("orderId"), .vint 1), (("orderNumber"), .vstr ("a"))]),
     (("2"), .vobj [(("orderId"), .vint 2), (("orderNumber"), .vstr ("b"))])]
    [(("1"), ("a")), (("2"), ("b"))] rfl rfl (by decide)

/-- C8 counterexample: for an unknown key with a non-empty suffix the result
is NOT the bare host URL (the suffix is appended anyway, as the repository's
own tests assert), and a key that is in the route table only after
lowercasing raises KeyError (the source checks membership with
`path.lower()` but indexes with `path`), so `build_path_url` is not
failure-free. -/
theorem C8_counterexample_url_builder :
    build_path_url ("unknown") ("/x")
      = .ok ("https://ssapi.shipstation.com/x")
    ∧ ("https://ssapi.shipstation.com/x") ≠ ("https://" ++ host)
    ∧ build_path_url ("ORDERS") ("") = .error (.keyError ("ORDERS")) :=
  ⟨rfl, by decide, rfl⟩

/-- C8 (amended): `build_path_url` returns host ++ mapped path ++ suffix for
a key found verbatim in the route table, raises KeyError for a key found
only after lowercasing, and returns host ++ suffix (the suffix still
appended) when the lowercased key is not in the table. -/
theorem C8_build_path_url_cases (path additional_path : String) :
    (∀ kv, route_map.find? (fun p => p.1 == path) = some kv →
        (route_map.find? (fun p => p.1 == pyLower path)).isSome = true →
        build_path_url path additional_path
          = .ok ("https://" ++ host ++ kv.2 ++ additional_path))
    ∧ ((route_map.find? (fun p => p.1 == pyLower path)).isSome = true →
        route_map.find? (fun p => p.1 == path) = none →
        build_path_url path additional_path = .error (.keyError path))
    ∧ ((route_map.find? (fun p => p.1 == pyLower path)).isSome = false →
        build_path_url path additional_path
          = .ok ("https://" ++ host ++ additional_path)) := by
  refine ⟨?_, ?_, ?_⟩
  · intro kv hfind hlow
    simp [build_path_url, hlow, hfind]
  · intro hlow hnone
    simp [build_path_url, hlow, hnone]
  · intro hlow
    simp [build_path_url, hlow]

/-- C8 witness: the three cases at "orders", "ORDERS" and "unknown". -/
theorem C8_build_path_url_witness :
    build_path_url ("orders") ("/5")
      = .ok ("https://" ++ host ++ ("/orders/") ++ ("/5"))
    ∧ build_path_url ("ORDERS") ("") = .error (.keyError ("ORDERS"))
    ∧ build_path_url ("unknown") ("/x")
      = .ok ("https://" ++ host ++ ("/x")) :=
  ⟨(C8_build_path_url_cases ("orders") ("/5")).1 (("orders"), ("/orders/"))
      rfl rfl,
   (C8_build_path_url_cases ("ORDERS") ("")).2.1 rfl rfl,
   (C8_build_path_url_cases ("unknown") ("/x")).2.2 rfl⟩

/-- C4 counterexample: with the tracker at `remaining = 0`, `hold_order`
(a write operation) performs no gate check at all — it issues its POST and
returns True on a 2xx response — and `update_order_notes` still issues its
pre-fetch GET (one HTTP request, not zero). -/
theorem C4_counterexample_ungated_writes :
    (hold_order ⟨0, 60⟩ 123 ("2024-01-01")
        (.success ⟨true, 39, 60, .vobj []⟩)).1 = true
    ∧ (hold_order ⟨0, 60⟩ 123 ("2024-01-01")
        (.success ⟨true, 39, 60, .vobj []⟩)).2.2.length = 1
    ∧ (update_order_notes ⟨0, 60⟩ ("1") ("n") ("") ("") ("")
        .readTimeout .readTimeout).2.2.length = 1 :=
  ⟨rfl, rfl, rfl⟩

/-- C4 (amended): of the write operations, `create_webhook_subscription`
and `delete_webhook` honour the gate: invoked with `remaining <= 0` they
return False and issue zero HTTP requests, whatever the network would have
answered. -/
theorem C4_gated_writes_refuse (st : ClientState)
    (target_url event store_id friendly_name webhook_id : String)
    (r1 r2 : HttpOutcome)
    (h : st.request_remaining ≤ 0) :
    create_webhook_subscription st target_url event store_id friendly_name r1
      = (false, st, [])
    ∧ delete_webhook st webhook_id r2 = (false, st, []) := by
  have hg : api_limit_at_max st = true := by
    simp [api_limit_at_max, h]
  constructor
  · simp [create_webhook_subscription, hg]
  · simp [delete_webhook, hg]

/-- C4 witness: the gated refusal at a concrete zero-budget state. -/
theorem C4_gated_writes_witness :
    create_webhook_subscription ⟨0, 60⟩ ("https://cb.example/") ("ORDER_NOTIFY")
        ("") ("") (.success ⟨true, 39, 60, .vobj []⟩)
      = (false, ⟨0, 60⟩, [])
    ∧ delete_webhook ⟨0, 60⟩ ("77") (.success ⟨true, 39, 60, .vobj []⟩)
      = (false, ⟨0, 60⟩, []) :=
  C4_gated_writes_refuse ⟨0, 60⟩ ("https://cb.example/") ("ORDER_NOTIFY")
    ("") ("") ("77") (.success ⟨true, 39, 60, .vobj []⟩)
    (.success ⟨true, 39, 60, .vobj []⟩) (by decide)

/-- C5 counterexample: `get_webhooks` on a 2xx response carrying fresh
rate-limit headers (remaining 7, reset 30) returns with the tracker still at
its previous value — it never calls `__update_api_limits`. -/
theorem C5_counterexample_no_update :
    (get_webhooks initialState
        (.success ⟨true, 7, 30, .vobj [(("webhooks"), .varr [])]⟩)).2.1
      = initialState
    ∧ initialState ≠ (⟨7, 30⟩ : ClientState) :=
  ⟨rfl, by decide⟩

/-- C5 (amended): `get_all_stores`, `get_order`, `get_all_orders` and
`hold_order` overwrite the tracker from the 2xx response's rate-limit
headers before returning, and `update_order_notes` does so whenever it
returns True (from its POST response's headers); `create_webhook_subscription`,
`get_webhooks` and `delete_webhook` return with the tracker unchanged on
every outcome. -/
theorem C5_tracker_update_per_operation (st : ClientState) (r rp : HttpResponse)
    (b : Bool) (params : Dict) (onum : Int)
    (oid oid2 date tu ev si fn wid note c1 c2 c3 : String)
    (resp1 resp2 resp3 fetch : HttpOutcome)
    (hok : r.ok = true) :
    (get_all_stores st b (.success r)).2.1 = ⟨r.rate_remaining, r.rate_reset⟩
    ∧ (get_order st oid (.success r)).2.1 = ⟨r.rate_remaining, r.rate_reset⟩
    ∧ (get_all_orders st params (.success r)).2.1
        = ⟨r.rate_remaining, r.rate_reset⟩
    ∧ (hold_order st onum date (.success r)).2.1
        = ⟨r.rate_remaining, r.rate_reset⟩
    ∧ ((update_order_notes st oid2 note c1 c2 c3 fetch (.success rp)).1
          = .ok true →
        (update_order_notes st oid2 note c1 c2 c3 fetch (.success rp)).2.1
          = ⟨rp.rate_remaining, rp.rate_reset⟩)
    ∧ (create_webhook_subscription st tu ev si fn resp1).2.1 = st
    ∧ (get_webhooks st resp2).2.1 = st
    ∧ (delete_webhook st wid resp3).2.1 = st := by
  refine ⟨?_, ?_, ?_, ?_, ?_, ?_, ?_, ?_⟩
  · simp [get_all_stores, hok, update_api_limits]
  · simp [get_order, hok, update_api_limits]
  · cases hsub : subscript r.body ("orders") <;>
      simp [get_all_orders, hok, hsub, update_api_limits]
  · simp [hold_order, hok, update_api_limits]
  · intro hres
    simp only [update_order_notes] at hres ⊢
    split at hres
    · simp at hres
    · simp at hres
    · split at hres
      · simp at hres
      · by_cases hrp : rp.ok
        · simp [hrp, update_api_limits]
        · simp [hrp] at hres
  · unfold create_webhook_subscription
    by_cases hg : api_limit_at_max st
    · simp [hg]
    · cases resp1 with
      | readTimeout => simp [hg]
      | connectionError => simp [hg]
      | success r1 => by_cases h1 : r1.ok <;> simp [hg, h1]
  · unfold get_webhooks
    by_cases hg : api_limit_at_max st
    · simp [hg]
    · cases resp2 with
      | readTimeout => simp [hg]
      | connectionError => simp [hg]
      | success r2 =>
          by_cases h2 : r2.ok
          · cases hsub : subscript r2.body ("webhooks") <;> simp [hg, h2, hsub]
          · simp [hg, h2]
  · unfold delete_webhook
    by_cases hg : api_limit_at_max st
    · simp [hg]
    · cases resp3 with
      | readTimeout => simp [hg]
      | connectionError => simp [hg]
      | success r3 => by_cases h3 : r3.ok <;> simp [hg, h3]

/-- C5 witness: the amended theorem at a fresh client and a 2xx response
with headers (7, 30). -/
theorem C5_tracker_update_witness :
    (get_all_stores initialState false (.success emptyBodyResponse)).2.1
      = ⟨(7 : Int), (30 : Int)⟩
    ∧ (get_order initialState ("1") (.success emptyBodyResponse)).2.1
      = ⟨(7 : Int), (30 : Int)⟩
    ∧ (get_all_orders initialState [] (.success emptyBodyResponse)).2.1
      = ⟨(7 : Int), (30 : Int)⟩
    ∧ (hold_order initialState 1 ("2024-01-01")
        (.success emptyBodyResponse)).2.1 = ⟨(7 : Int), (30 : Int)⟩
    ∧ ((update_order_notes initialState ("1") ("n") ("") ("") ("")
          .readTimeout (.success emptyBodyResponse)).1 = .ok true →
        (update_order_notes initialState ("1") ("n") ("") ("") ("")
          .readTimeout (.success emptyBodyResponse)).2.1
          = ⟨(7 : Int), (30 : Int)⟩)
    ∧ (create_webhook_subscription initialState ("u") ("e") ("") ("")
        .readTimeout).2.1 = initialState
    ∧ (get_webhooks initialState .readTimeout).2.1 = initialState
    ∧ (delete_webhook initialState ("7") .readTimeout).2.1 = initialState :=
  C5_tracker_update_per_operation initialState emptyBodyResponse
    emptyBodyResponse false [] 1 ("1") ("1") ("2024-01-01") ("u") ("e") ("")
    ("") ("7") ("n") ("") ("") ("") .readTimeout .readTimeout .readTimeout
    .readTimeout rfl

/-- C9 counterexample: a 2xx response whose body lacks the expected key makes
`get_webhooks` and `get_all_orders` raise KeyError to the caller, instead of
the uniform empty result the claim requires. -/
theorem C9_counterexample_keyerror :
    (get_webhooks initialState (.success emptyBodyResponse)).1
      = .error (.keyError ("webhooks"))
    ∧ (get_all_orders initialState [] (.success emptyBodyResponse)).1
      = .error (.keyError ("orders")) :=
  ⟨rfl, rfl⟩

/-- C9 (amended): on a 2xx response whose dict body lacks the expected key,
`get_webhooks` raises `KeyError("webhooks")` and `get_all_orders` raises
`KeyError("orders")` to the caller; transport failures aside, only non-2xx
statuses are converted to the uniform empty result. -/
theorem C9_missing_key_raises (st : ClientState) (params : Dict)
    (r r2 : HttpResponse) (d : Dict)
    (hgate : api_limit_at_max st = false)
    (hok : r.ok = true) (hbody : r.body = .vobj d)
    (hw : aget d ("webhooks") = none) (ho : aget d ("orders") = none)
    (hok2 : r2.ok = false) :
    (get_webhooks st (.success r)).1 = .error (.keyError ("webhooks"))
    ∧ (get_all_orders st params (.success r)).1 = .error (.keyError ("orders"))
    ∧ (get_webhooks st (.success r2)).1 = .ok (.varr [])
    ∧ (get_all_orders st params (.success r2)).1
        = .ok (mkOrderResponse (.records [])) := by
  refine ⟨?_, ?_, ?_, ?_⟩
  · simp [get_webhooks, hgate, hok, subscript, hbody, hw]
  · simp [get_all_orders, hok, subscript, hbody, ho]
  · simp [get_webhooks, hgate, hok2]
  · simp [get_all_orders, hok2]

/-- C9 witness: the amended theorem at a fresh client, an empty-object 2xx
body and a 404-style failure response. -/
theorem C9_missing_key_witness :
    (get_webhooks initialState (.success emptyBodyResponse)).1
      = .error (.keyError ("webhooks"))
    ∧ (get_all_orders initialState [] (.success emptyBodyResponse)).1
      = .error (.keyError ("orders"))
    ∧ (get_webhooks initialState (.success ⟨false, 0, 0, .vnull⟩)).1
      = .ok (.varr [])
    ∧ (get_all_orders initialState [] (.success ⟨false, 0, 0, .vnull⟩)).1
      = .ok (mkOrderResponse (.records [])) :=
  C9_missing_key_raises initialState [] emptyBodyResponse ⟨false, 0, 0, .vnull⟩
    [] rfl rfl rfl rfl rfl rfl

end ShipStation
